import Mathlib

/-!
Shallow embedding of `src/scraper.js` from the fast-scrap repository.

The repository exports a single async function `scrape({ url, proxy, recaptchaApiKey })`
that launches a headless browser through puppeteer-extra, configures it (proxy,
headers, request interception, anti-automation overrides), navigates, optionally
solves reCAPTCHAs, and returns the page HTML, with a try/catch/finally wrapper.

The embedding models every awaited external call as a step whose success or
failure is prescribed by an exogenous environment `Env` (one flag per awaited
call, plus the HTML that `page.content()` would produce).  Running `scrape`
yields an `Outcome`: the returned value (`Option String`, `none` standing for
the JS `null`), the ordered trace of externally observable events, and the
process-wide puppeteer plugin registry after the call (the source mutates it
via `puppeteer.use` when a reCAPTCHA key is supplied).

JS truthiness of the optional string fields (`proxy.url`, `proxy.user`,
`recaptchaApiKey`) is modelled exactly: absent or empty strings are falsy.
-/

/-- JS truthiness for an optional string: `undefined`/`null` and `""` are falsy. -/
def jsTruthy : Option String → Bool
  | none => false
  | some s => !(s == "")

/-- The `proxy` option object: `{ url, user, pwd }`, each field optional. -/
structure Proxy where
  url : Option String := none
  user : Option String := none
  pwd : Option String := none
deriving DecidableEq

/-- The argument object of `scrape`: `{ url, proxy = {}, recaptchaApiKey = null }`. -/
structure ScrapeOptions where
  url : String
  proxy : Proxy := {}
  recaptchaApiKey : Option String := none
deriving DecidableEq

/-- A puppeteer-extra plugin as registered through `puppeteer.use`. -/
inductive Plugin where
  | adblocker (blockTrackers : Bool)
  | stealth
  | anonymizeUA
  | recaptcha (token : String)
deriving DecidableEq

/-- The three plugins registered at module load (lines 16-18 of scraper.js):
`AdblockerPlugin({ blockTrackers: true })`, `StealthPlugin()`, `UserAgentPlugin()`. -/
def initRegistry : List Plugin :=
  [Plugin.adblocker true, Plugin.stealth, Plugin.anonymizeUA]

/-- Externally observable events of one `scrape` call, in the order they are
issued.  Each constructor corresponds to one line of scraper.js: plugin
registration (36), `puppeteer.launch` (50), `browser.newPage` (86),
`page.authenticate` (90), `page.setExtraHTTPHeaders` (98),
`page.setRequestInterception` (105), `page.evaluateOnNewDocument` (117),
`page.target().createCDPSession` (129), `Network.setUserAgentOverride` (130),
`page.goto` (137), `page.waitForSelector` (138), `page.solveRecaptchas` (142),
`page.content` (146), the catch-block `console.error` pair (150-151) and the
finally-block `browser.close` (156). -/
inductive Event where
  | registerPlugin (p : Plugin)
  | launch (headless ignoreHTTPSErrors : Bool) (args : List String) (plugins : List Plugin)
  | newPage
  | authenticate (username password : Option String)
  | setHeaders (accept : String)
  | setInterception (enabled : Bool)
  | evalOnNewDocument (webdriver : Bool) (plugins : List Nat) (languages : List String)
  | createCDP
  | setUAOverride (userAgent platform acceptLanguage : String)
  | navigate (url waitUntil : String) (timeoutMs : Nat)
  | waitForSelector (selector : String)
  | solveRecaptchas
  | getContent
  | logError (url cause : String)
  | close
deriving DecidableEq

/-- Prescribed outcome of each awaited external call during one `scrape` run.
`contentHtml = none` means `page.content()` rejects; `some h` means it
resolves to the HTML string `h`. -/
structure Env where
  launchOk : Bool
  newPageOk : Bool
  authOk : Bool
  headersOk : Bool
  interceptOk : Bool
  evalOk : Bool
  cdpOk : Bool
  uaOk : Bool
  gotoOk : Bool
  selectorOk : Bool
  captchaOk : Bool
  contentHtml : Option String
deriving DecidableEq

/-- The spoofed user-agent constant (lines 46-47 of scraper.js). -/
def userAgent : String :=
  "Mozilla/5.0 (Windows NT 10.0; Win64; x64) AppleWebKit/537.36 (KHTML, like Gecko) Chrome/91.0.4472.124 Safari/537.36"

/-- The fixed `accept` header set on every request (lines 98-101). -/
def acceptHeader : String :=
  "text/html,application/xhtml+xml,application/xml;q=0.9,image/avif,image/webp,image/apng,*/*;q=0.8,application/signed-exchange;v=b3;q=0.9"

/-- The spoofed `navigator.languages` value (lines 122-124). -/
def navLanguages : List String := ["en-US", "en"]

/-- The launch `args` array literal before `.filter(Boolean)` (lines 53-82):
the fixed flags plus `proxy?.url ? '--proxy-server=' + proxy.url : ''`. -/
def rawLaunchArgs (p : Proxy) : List String :=
  ["--disable-accelerated-2d-canvas",
   "--no-zygote",
   "--no-first-run",
   "--disable-dev-shm-usage",
   "--no-sandbox",
   "--disable-setuid-sandbox",
   "--window-position=0,0",
   "--window-size=1280,720",
   "--disable-infobars",
   "--lang=en-US,en;q=0.9",
   "--user-agent=" ++ userAgent,
   "--ignore-certificate-errors",
   "--ignore-certificate-errors-spki-list",
   "--disable-extensions",
   "--disable-default-apps",
   "--disable-component-extensions-with-background-pages",
   "--disable-web-security",
   "--disable-blink-features=AutomationControlled",
   if jsTruthy p.url then "--proxy-server=" ++ p.url.getD "" else ""]

/-- The effective launch flags: `.filter(Boolean)` drops the empty string. -/
def launchArgs (p : Proxy) : List String :=
  (rawLaunchArgs p).filter (fun s => s != "")

/-- The fixed flags that are always present, for reasoning about `launchArgs`. -/
def baseLaunchArgs : List String :=
  ["--disable-accelerated-2d-canvas",
   "--no-zygote",
   "--no-first-run",
   "--disable-dev-shm-usage",
   "--no-sandbox",
   "--disable-setuid-sandbox",
   "--window-position=0,0",
   "--window-size=1280,720",
   "--disable-infobars",
   "--lang=en-US,en;q=0.9",
   "--user-agent=" ++ userAgent,
   "--ignore-certificate-errors",
   "--ignore-certificate-errors-spki-list",
   "--disable-extensions",
   "--disable-default-apps",
   "--disable-component-extensions-with-background-pages",
   "--disable-web-security",
   "--disable-blink-features=AutomationControlled"]

/-- Recognizes a `--proxy-server=` launch flag (by its first 15 characters). -/
def isProxyFlag (s : String) : Bool :=
  s.data.take 15 == "--proxy-server=".data

/-- The guard of `page.authenticate` (line 89): `proxy?.url && proxy?.user`. -/
def authCond (p : Proxy) : Bool :=
  jsTruthy p.url && jsTruthy p.user

/-- The blocked resource types of the request filter (line 108). -/
def blockedResources : List String := ["image", "stylesheet", "font", "media"]

/-- Decision of the interception callback installed by `page.on` at line 106. -/
inductive RequestAction where
  | abort
  | cont
deriving DecidableEq

/-- The per-request filter (lines 106-114): abort when the resource type is in
`blockedResources`, otherwise `req.continue()`. -/
def requestHandler (resourceType : String) : RequestAction :=
  if resourceType ∈ blockedResources then RequestAction.abort else RequestAction.cont

/-- The plugin registry after the conditional `puppeteer.use(RecaptchaPlugin(...))`
at lines 35-41: a truthy key appends a fresh recaptcha plugin instance. -/
def newRegistry (opts : ScrapeOptions) (reg : List Plugin) : List Plugin :=
  if jsTruthy opts.recaptchaApiKey then
    reg ++ [Plugin.recaptcha (opts.recaptchaApiKey.getD "")]
  else reg

/-- The registration events emitted before the browser work starts. -/
def regEvents (opts : ScrapeOptions) : List Event :=
  if jsTruthy opts.recaptchaApiKey then
    [Event.registerPlugin (Plugin.recaptcha (opts.recaptchaApiKey.getD ""))]
  else []

/-- The awaited external calls of the try block, in source order (lines 50-147).
`page.authenticate` appears only under `authCond`; `page.solveRecaptchas`
only when the key is truthy. -/
def steps (opts : ScrapeOptions) (plugins : List Plugin) : List Event :=
  [Event.launch true true (launchArgs opts.proxy) plugins, Event.newPage]
  ++ (if authCond opts.proxy then
        [Event.authenticate opts.proxy.user opts.proxy.pwd] else [])
  ++ [Event.setHeaders acceptHeader,
      Event.setInterception true,
      Event.evalOnNewDocument false [1, 2, 3, 4, 5] navLanguages,
      Event.createCDP,
      Event.setUAOverride userAgent "Win32" "en-US, en",
      Event.navigate opts.url "domcontentloaded" 60000,
      Event.waitForSelector "body"]
  ++ (if jsTruthy opts.recaptchaApiKey then [Event.solveRecaptchas] else [])
  ++ [Event.getContent]

/-- Whether a given awaited call succeeds under the environment. -/
def stepOk (env : Env) : Event → Bool
  | Event.launch _ _ _ _ => env.launchOk
  | Event.newPage => env.newPageOk
  | Event.authenticate _ _ => env.authOk
  | Event.setHeaders _ => env.headersOk
  | Event.setInterception _ => env.interceptOk
  | Event.evalOnNewDocument _ _ _ => env.evalOk
  | Event.createCDP => env.cdpOk
  | Event.setUAOverride _ _ _ => env.uaOk
  | Event.navigate _ _ _ => env.gotoOk
  | Event.waitForSelector _ => env.selectorOk
  | Event.solveRecaptchas => env.captchaOk
  | Event.getContent => env.contentHtml.isSome
  | _ => true

/-- The calls actually issued inside the try block: every call up to and
including the first failing one (execution stops at the first rejection). -/
def attempted (env : Env) (l : List Event) : List Event :=
  l.takeWhile (stepOk env) ++ (l.dropWhile (stepOk env)).take 1

/-- The first failing call of the try block, if any. -/
def firstFail (env : Env) (l : List Event) : Option Event :=
  (l.dropWhile (stepOk env)).head?

/-- The cause string carried by the rejection of each call. -/
def causeOf : Event → String
  | Event.launch _ _ _ _ => "browser launch failed"
  | Event.newPage => "newPage failed"
  | Event.authenticate _ _ => "proxy authentication failed"
  | Event.setHeaders _ => "setExtraHTTPHeaders failed"
  | Event.setInterception _ => "setRequestInterception failed"
  | Event.evalOnNewDocument _ _ _ => "evaluateOnNewDocument failed"
  | Event.createCDP => "createCDPSession failed"
  | Event.setUAOverride _ _ _ => "setUserAgentOverride failed"
  | Event.navigate _ _ _ => "navigation timeout"
  | Event.waitForSelector _ => "waitForSelector failed"
  | Event.solveRecaptchas => "recaptcha solving failed"
  | Event.getContent => "content extraction failed"
  | _ => ""

/-- Result of one `scrape` call: the resolved value (`none` is the JS `null`),
the event trace, and the plugin registry after the call. -/
structure Outcome where
  result : Option String
  trace : List Event
  registry : List Plugin
deriving DecidableEq

/-- The embedding of `scrape` (lines 31-159).  The try block issues the calls
of `steps` in order until the first failure.  On success the call resolves to
the HTML; the finally block closes the browser.  On failure the catch block
logs the URL and the cause and the call resolves to `null`; the finally block
closes the browser only when `puppeteer.launch` had succeeded (otherwise the
`browser` variable was never assigned and `if (browser)` skips the close). -/
def scrape (opts : ScrapeOptions) (reg : List Plugin) (env : Env) : Outcome :=
  let reg1 := newRegistry opts reg
  let l := steps opts reg1
  match firstFail env l with
  | none =>
      { result := env.contentHtml
        trace := regEvents opts ++ attempted env l ++ [Event.close]
        registry := reg1 }
  | some e =>
      { result := none
        trace := regEvents opts ++ attempted env l
                   ++ [Event.logError opts.url (causeOf e)]
                   ++ (if env.launchOk then [Event.close] else [])
        registry := reg1 }

/-- Number of events of a trace satisfying a discriminator. -/
def countP (p : Event → Bool) (l : List Event) : Nat :=
  (l.filter p).length

/-- Discriminator: `browser.close` events. -/
def isClose : Event → Bool
  | Event.close => true
  | _ => false

/-- Discriminator: `page.authenticate` events. -/
def isAuth : Event → Bool
  | Event.authenticate _ _ => true
  | _ => false

/-- Discriminator: `page.goto` events. -/
def isNavigate : Event → Bool
  | Event.navigate _ _ _ => true
  | _ => false

/-- Discriminator: `page.solveRecaptchas` events. -/
def isSolve : Event → Bool
  | Event.solveRecaptchas => true
  | _ => false

/-- Discriminator: the readiness wait (`page.waitForSelector`). -/
def isReadyWait : Event → Bool
  | Event.waitForSelector _ => true
  | _ => false

/-- Discriminator: content extraction (`page.content`). -/
def isGetContent : Event → Bool
  | Event.getContent => true
  | _ => false

/-- Discriminator: a catch-block log entry for the given URL. -/
def isLogFor (url : String) : Event → Bool
  | Event.logError u _ => u == url
  | _ => false

/-- Every `p`-event of the list occurs strictly before every `q`-event:
the list splits at a cut with no `p`-event at or after the cut and no
`q`-event before it. -/
def beforeIn (p q : Event → Bool) (l : List Event) : Prop :=
  ∃ l1 l2, l = l1 ++ l2 ∧ (∀ e ∈ l1, q e = false) ∧ (∀ e ∈ l2, p e = false)

/-- Success of every awaited call of the run, written as an explicit
conjunction of environment flags (the conditional steps contribute only when
their guard holds). -/
def allOk (opts : ScrapeOptions) (env : Env) : Bool :=
  env.launchOk && env.newPageOk
    && (!(authCond opts.proxy) || env.authOk)
    && env.headersOk && env.interceptOk && env.evalOk && env.cdpOk && env.uaOk
    && env.gotoOk && env.selectorOk
    && (!(jsTruthy opts.recaptchaApiKey) || env.captchaOk)
    && env.contentHtml.isSome

/-- Success of every call up to and including `createCDPSession` and the
user-agent override, i.e. the run reaches navigation. -/
def okThroughUA (opts : ScrapeOptions) (env : Env) : Bool :=
  env.launchOk && env.newPageOk
    && (!(authCond opts.proxy) || env.authOk)
    && env.headersOk && env.interceptOk && env.evalOk && env.cdpOk && env.uaOk

/-- Success of every call up to and including the readiness wait, i.e. the run
reaches the conditional reCAPTCHA step. -/
def okThroughReady (opts : ScrapeOptions) (env : Env) : Bool :=
  okThroughUA opts env && env.gotoOk && env.selectorOk

/-! ## Helper lemmas about `attempted` and `firstFail` -/

lemma attempted_nil (env : Env) : attempted env [] = [] := rfl

lemma attempted_cons_ok (env : Env) (a : Event) (l : List Event)
    (h : stepOk env a = true) : attempted env (a :: l) = a :: attempted env l := by
  simp [attempted, List.takeWhile_cons, List.dropWhile_cons, h]

lemma attempted_cons_bad (env : Env) (a : Event) (l : List Event)
    (h : stepOk env a = false) : attempted env (a :: l) = [a] := by
  simp [attempted, List.takeWhile_cons, List.dropWhile_cons, h]

lemma attempted_sublist (env : Env) (l : List Event) :
    List.Sublist (attempted env l) l := by
  have h : List.Sublist (attempted env l)
      (l.takeWhile (stepOk env) ++ l.dropWhile (stepOk env)) :=
    List.Sublist.append (List.Sublist.refl _)
      (List.take_sublist 1 (l.dropWhile (stepOk env)))
  rwa [List.takeWhile_append_dropWhile] at h

lemma attempted_of_all (env : Env) (l : List Event)
    (h : l.all (stepOk env) = true) : attempted env l = l := by
  induction l with
  | nil => rfl
  | cons a l ih =>
      simp only [List.all_cons, Bool.and_eq_true] at h
      rw [attempted_cons_ok env a l h.1, ih h.2]

lemma mem_attempted_iff (env : Env) {l1 l2 : List Event} {x : Event}
    (hx : x ∉ l1) :
    x ∈ attempted env (l1 ++ x :: l2) ↔ l1.all (stepOk env) = true := by
  induction l1 with
  | nil =>
      simp only [List.nil_append, List.all_nil, iff_true]
      cases h : stepOk env x with
      | true => rw [attempted_cons_ok env x l2 h]; exact List.mem_cons_self x _
      | false => rw [attempted_cons_bad env x l2 h]; exact List.mem_singleton.mpr rfl
  | cons a l1 ih =>
      have hxa : x ≠ a := fun hco => hx (hco ▸ List.mem_cons_self a l1)
      have hx1 : x ∉ l1 := fun hco => hx (List.mem_cons_of_mem a hco)
      cases h : stepOk env a with
      | true =>
          rw [List.cons_append, attempted_cons_ok env a _ h]
          simp only [List.mem_cons, List.all_cons, h, Bool.true_and]
          exact ⟨fun hc => (ih hx1).mp (hc.resolve_left hxa),
                 fun hc => Or.inr ((ih hx1).mpr hc)⟩
      | false =>
          rw [List.cons_append, attempted_cons_bad env a _ h]
          simp [hxa, h]

lemma not_mem_attempted (env : Env) {l : List Event} {x : Event}
    (hx : x ∉ l) : x ∉ attempted env l :=
  fun hc => hx ((attempted_sublist env l).mem hc)

lemma firstFail_none_iff (env : Env) (l : List Event) :
    firstFail env l = none ↔ l.all (stepOk env) = true := by
  induction l with
  | nil => simp [firstFail]
  | cons a l ih =>
      cases h : stepOk env a with
      | true =>
          simp only [firstFail, List.dropWhile_cons, h, if_true, List.all_cons,
            Bool.true_and] at ih ⊢
          exact ih
      | false => simp [firstFail, List.dropWhile_cons, h]

/-! ## Helper lemmas about `countP` and `beforeIn` -/

lemma countP_append (p : Event → Bool) (a b : List Event) :
    countP p (a ++ b) = countP p a + countP p b := by
  simp [countP, List.filter_append]

lemma countP_sublist {p : Event → Bool} {a b : List Event}
    (h : List.Sublist a b) : countP p a ≤ countP p b :=
  (List.Sublist.filter p h).length_le

lemma countP_eq_zero {p : Event → Bool} {l : List Event} :
    countP p l = 0 ↔ ∀ e ∈ l, p e = false := by
  simp [countP, List.filter_eq_nil_iff]

lemma beforeIn_sublist {p q : Event → Bool} {a b : List Event}
    (hs : List.Sublist a b) (h : beforeIn p q b) : beforeIn p q a := by
  obtain ⟨l1, l2, rfl, hq, hp⟩ := h
  obtain ⟨x, y, rfl, hx, hy⟩ := List.sublist_append_iff.mp hs
  exact ⟨x, y, rfl, fun e he => hq e (hx.mem he), fun e he => hp e (hy.mem he)⟩

lemma beforeIn_extend {p q : Event → Bool} {l : List Event} (a b : List Event)
    (ha : ∀ e ∈ a, q e = false) (hb : ∀ e ∈ b, p e = false)
    (h : beforeIn p q l) : beforeIn p q (a ++ l ++ b) := by
  obtain ⟨l1, l2, rfl, hq, hp⟩ := h
  refine ⟨a ++ l1, l2 ++ b, by simp, ?_, ?_⟩
  · intro e he
    rcases List.mem_append.mp he with he | he
    · exact ha e he
    · exact hq e he
  · intro e he
    rcases List.mem_append.mp he with he | he
    · exact hp e he
    · exact hb e he

/-- The cut formulation of `beforeIn` indeed orders positions: any `p`-event
sits at a strictly smaller index than any `q`-event. -/
lemma beforeIn_lt {p q : Event → Bool} {l : List Event} (h : beforeIn p q l)
    (i j : Nat) (hi : i < l.length) (hj : j < l.length)
    (hp : p (l.get ⟨i, hi⟩) = true) (hq : q (l.get ⟨j, hj⟩) = true) : i < j := by
  obtain ⟨l1, l2, rfl, hql, hpl⟩ := h
  rw [List.get_eq_getElem] at hp hq
  by_contra hle
  push_neg at hle
  have hjlt : j < l1.length := by
    by_contra hj1
    push_neg at hj1
    have hi1 : l1.length ≤ i := le_trans hj1 hle
    have hfalse : p ((l1 ++ l2)[i]) = false := by
      rw [List.getElem_append_right hi1]
      exact hpl _ (List.getElem_mem _)
    rw [hp] at hfalse
    exact Bool.true_eq_false.mp hfalse
  have hfalse : q ((l1 ++ l2)[j]) = false := by
    rw [List.getElem_append_left hjlt]
    exact hql _ (List.getElem_mem _)
  rw [hq] at hfalse
  exact Bool.true_eq_false.mp hfalse

/-! ## Structure of a `scrape` run -/

lemma regEvents_shape (opts : ScrapeOptions) :
    ∀ e ∈ regEvents opts, ∃ pl, e = Event.registerPlugin pl := by
  unfold regEvents
  cases jsTruthy opts.recaptchaApiKey <;> simp

lemma trace_structure (opts : ScrapeOptions) (reg : List Plugin) (env : Env) :
    ∃ tail, (scrape opts reg env).trace =
        regEvents opts ++ attempted env (steps opts (newRegistry opts reg)) ++ tail
      ∧ ∀ e ∈ tail, (∃ c, e = Event.logError opts.url c) ∨ e = Event.close := by
  rcases hf : firstFail env (steps opts (newRegistry opts reg)) with _ | e
  · refine ⟨[Event.close], ?_, by simp⟩
    simp [scrape, hf]
  · refine ⟨[Event.logError opts.url (causeOf e)]
      ++ (if env.launchOk then [Event.close] else []), ?_, ?_⟩
    · simp [scrape, hf]
    · intro x hx
      rcases List.mem_append.mp hx with hx | hx
      · exact Or.inl ⟨causeOf e, List.mem_singleton.mp hx⟩
      · cases h : env.launchOk <;> rw [h] at hx <;> simp at hx
        exact Or.inr hx

lemma mem_trace_of_mem_attempted (opts : ScrapeOptions) (reg : List Plugin)
    (env : Env) {e : Event}
    (h : e ∈ attempted env (steps opts (newRegistry opts reg))) :
    e ∈ (scrape opts reg env).trace := by
  obtain ⟨tail, htr, -⟩ := trace_structure opts reg env
  rw [htr]
  exact List.mem_append.mpr (Or.inl (List.mem_append.mpr (Or.inr h)))

/-- Every event of the trace is either an issued try-block call, a plugin
registration, a catch-block log entry for the call's URL, or the close. -/
lemma mem_trace_cases (opts : ScrapeOptions) (reg : List Plugin) (env : Env)
    {e : Event} (h : e ∈ (scrape opts reg env).trace) :
    e ∈ steps opts (newRegistry opts reg)
      ∨ (∃ pl, e = Event.registerPlugin pl)
      ∨ (∃ c, e = Event.logError opts.url c)
      ∨ e = Event.close := by
  obtain ⟨tail, htr, htail⟩ := trace_structure opts reg env
  rw [htr] at h
  rcases List.mem_append.mp h with h | h
  · rcases List.mem_append.mp h with h | h
    · exact Or.inr (Or.inl (regEvents_shape opts e h))
    · exact Or.inl ((attempted_sublist env _).mem h)
  · rcases htail e h with h | h
    · exact Or.inr (Or.inr (Or.inl h))
    · exact Or.inr (Or.inr (Or.inr h))

/-- To show a discriminator never fires on the trace it suffices to check the
try-block call list, plugin registrations, log entries and the close event. -/
lemma countP_trace_zero (opts : ScrapeOptions) (reg : List Plugin) (env : Env)
    (p : Event → Bool)
    (hsteps : ∀ e ∈ steps opts (newRegistry opts reg), p e = false)
    (hreg : ∀ pl, p (Event.registerPlugin pl) = false)
    (hlog : ∀ c, p (Event.logError opts.url c) = false)
    (hclose : p Event.close = false) :
    countP p (scrape opts reg env).trace = 0 := by
  rw [countP_eq_zero]
  intro e he
  rcases mem_trace_cases opts reg env he with h | ⟨pl, rfl⟩ | ⟨c, rfl⟩ | rfl
  · exact hsteps e h
  · exact hreg pl
  · exact hlog c
  · exact hclose

lemma allOk_iff_all_steps (opts : ScrapeOptions) (plugins : List Plugin)
    (env : Env) :
    (steps opts plugins).all (stepOk env) = allOk opts env := by
  cases ha : authCond opts.proxy <;> cases hk : jsTruthy opts.recaptchaApiKey <;>
    simp [steps, stepOk, allOk, ha, hk, Bool.and_assoc]

lemma scrape_registry_eq (opts : ScrapeOptions) (reg : List Plugin) (env : Env) :
    (scrape opts reg env).registry = newRegistry opts reg := by
  rcases hf : firstFail env (steps opts (newRegistry opts reg)) with _ | e <;>
    simp [scrape, hf]

lemma scrape_result_eq (opts : ScrapeOptions) (reg : List Plugin) (env : Env) :
    (scrape opts reg env).result =
      if allOk opts env = true then env.contentHtml else none := by
  rcases hf : firstFail env (steps opts (newRegistry opts reg)) with _ | e
  · have hall : (steps opts (newRegistry opts reg)).all (stepOk env) = true :=
      (firstFail_none_iff _ _).mp hf
    rw [allOk_iff_all_steps] at hall
    simp [scrape, hf, hall]
  · have hne : firstFail env (steps opts (newRegistry opts reg)) ≠ none := by
      simp [hf]
    have hall : (steps opts (newRegistry opts reg)).all (stepOk env) ≠ true :=
      fun hc => hne ((firstFail_none_iff _ _).mpr hc)
    rw [allOk_iff_all_steps] at hall
    simp only [scrape, hf]
    rw [if_neg hall]

/-- Refinement of `mem_trace_cases`: a trace event that is not a registration,
log, or close event was an issued try-block call (member of `attempted`). -/
lemma mem_trace_attempted_or (opts : ScrapeOptions) (reg : List Plugin)
    (env : Env) {e : Event} (h : e ∈ (scrape opts reg env).trace) :
    e ∈ attempted env (steps opts (newRegistry opts reg))
      ∨ (∃ pl, e = Event.registerPlugin pl)
      ∨ (∃ c, e = Event.logError opts.url c)
      ∨ e = Event.close := by
  obtain ⟨tail, htr, htail⟩ := trace_structure opts reg env
  rw [htr] at h
  rcases List.mem_append.mp h with h | h
  · rcases List.mem_append.mp h with h | h
    · exact Or.inr (Or.inl (regEvents_shape opts e h))
    · exact Or.inl h
  · rcases htail e h with h | h
    · exact Or.inr (Or.inr (Or.inl h))
    · exact Or.inr (Or.inr (Or.inr h))

lemma countP_attempted_zero (env : Env) (l : List Event) {p : Event → Bool}
    (h : ∀ e ∈ l, p e = false) : countP p (attempted env l) = 0 :=
  countP_eq_zero.mpr fun e he => h e ((attempted_sublist env l).mem he)

/-- Concrete environment in which every awaited call succeeds. -/
def envAll : Env :=
  { launchOk := true, newPageOk := true, authOk := true, headersOk := true
    interceptOk := true, evalOk := true, cdpOk := true, uaOk := true
    gotoOk := true, selectorOk := true, captchaOk := true
    contentHtml := some "<html><body>ok</body></html>" }

/-! ## Claims -/

/-- C3: for every intercepted request, the filter aborts it if and only if its
resource type is one of image, stylesheet, font, media; every other type
(in particular document and script) is allowed to continue. -/
theorem requestHandler_abort_iff (t : String) :
    (requestHandler t = RequestAction.abort ↔ t ∈ blockedResources)
      ∧ (t ∉ blockedResources → requestHandler t = RequestAction.cont) := by
  unfold requestHandler
  by_cases h : t ∈ blockedResources
  · simp [h]
  · simp [h]

/-- Witness for C3 at the concrete resource types named by the claim. -/
theorem requestHandler_abort_iff_witness :
    requestHandler "image" = RequestAction.abort
      ∧ requestHandler "stylesheet" = RequestAction.abort
      ∧ requestHandler "font" = RequestAction.abort
      ∧ requestHandler "media" = RequestAction.abort
      ∧ requestHandler "document" = RequestAction.cont
      ∧ requestHandler "script" = RequestAction.cont :=
  ⟨(requestHandler_abort_iff "image").1.mpr (by decide),
   (requestHandler_abort_iff "stylesheet").1.mpr (by decide),
   (requestHandler_abort_iff "font").1.mpr (by decide),
   (requestHandler_abort_iff "media").1.mpr (by decide),
   (requestHandler_abort_iff "document").2 (by decide),
   (requestHandler_abort_iff "script").2 (by decide)⟩

lemma steps_no_close (opts : ScrapeOptions) (plugins : List Plugin) :
    ∀ e ∈ steps opts plugins, isClose e = false := by
  cases ha : authCond opts.proxy <;> cases hk : jsTruthy opts.recaptchaApiKey <;>
    simp [steps, ha, hk, isClose]

lemma countP_regEvents (opts : ScrapeOptions) (p : Event → Bool)
    (h : ∀ pl, p (Event.registerPlugin pl) = false) :
    countP p (regEvents opts) = 0 := by
  unfold regEvents
  cases jsTruthy opts.recaptchaApiKey <;> simp [countP, h]

lemma all_steps_launchOk (opts : ScrapeOptions) (plugins : List Plugin)
    (env : Env) (hall : (steps opts plugins).all (stepOk env) = true) :
    env.launchOk = true := by
  rw [List.all_eq_true] at hall
  have h := hall (Event.launch true true (launchArgs opts.proxy) plugins)
    (by simp [steps])
  simpa [stepOk] using h

/-- C2: whenever a `scrape` call acquires a browser session (the launch call
succeeds), exactly one `browser.close` is issued, and it is the last event of
the trace, whatever else succeeds or fails; when the launch itself fails no
session exists and no close is issued. -/
theorem scrape_session_release (opts : ScrapeOptions) (reg : List Plugin)
    (env : Env) :
    countP isClose (scrape opts reg env).trace
        = (if env.launchOk = true then 1 else 0)
      ∧ (env.launchOk = true →
          ∃ t, (scrape opts reg env).trace = t ++ [Event.close]) := by
  have hatt : countP isClose (attempted env (steps opts (newRegistry opts reg))) = 0 :=
    countP_attempted_zero env _ (steps_no_close opts (newRegistry opts reg))
  have hreg : countP isClose (regEvents opts) = 0 :=
    countP_regEvents opts isClose (fun _ => rfl)
  rcases hf : firstFail env (steps opts (newRegistry opts reg)) with _ | e
  · have hall := (firstFail_none_iff env _).mp hf
    have hlaunch := all_steps_launchOk opts (newRegistry opts reg) env hall
    constructor
    · simp only [scrape, hf]
      rw [countP_append, countP_append, hatt, hreg, if_pos hlaunch]
      rfl
    · intro _
      exact ⟨regEvents opts ++ attempted env (steps opts (newRegistry opts reg)),
        by simp [scrape, hf]⟩
  · constructor
    · simp only [scrape, hf]
      rw [countP_append, countP_append, countP_append, hatt, hreg]
      cases hl : env.launchOk <;> simp [countP, isClose]
    · intro hl
      refine ⟨regEvents opts ++ attempted env (steps opts (newRegistry opts reg))
        ++ [Event.logError opts.url (causeOf e)], ?_⟩
      simp [scrape, hf, hl]

/-- Witness for C2: in the all-success environment the close count is one and
the trace ends with the close event. -/
theorem scrape_session_release_witness :
    countP isClose (scrape { url := "https://example.com" } initRegistry envAll).trace = 1
      ∧ ∃ t, (scrape { url := "https://example.com" } initRegistry envAll).trace
          = t ++ [Event.close] := by
  have h := scrape_session_release { url := "https://example.com" } initRegistry envAll
  exact ⟨h.1, h.2 rfl⟩

lemma steps_no_log (opts : ScrapeOptions) (plugins : List Plugin) :
    ∀ e ∈ steps opts plugins, isLogFor opts.url e = false := by
  cases ha : authCond opts.proxy <;> cases hk : jsTruthy opts.recaptchaApiKey <;>
    simp [steps, ha, hk, isLogFor]

lemma countP_navigate_steps (opts : ScrapeOptions) (plugins : List Plugin) :
    countP isNavigate (steps opts plugins) = 1 := by
  cases ha : authCond opts.proxy <;> cases hk : jsTruthy opts.recaptchaApiKey <;>
    simp [countP, steps, ha, hk, isNavigate, List.filter_append, List.filter_cons]

/-- C1: if any awaited step of the fetch fails, `scrape` catches the failure,
logs the originating URL with a cause, and resolves to the single failure
value `null` (modelled `none`); navigation is attempted at most once (no
retry).  When every step succeeds it resolves to the serialized HTML string
produced by `page.content()` and nothing is logged. -/
theorem scrape_error_collapse (opts : ScrapeOptions) (reg : List Plugin)
    (env : Env) :
    (allOk opts env = true →
        (scrape opts reg env).result = env.contentHtml
          ∧ (scrape opts reg env).result.isSome = true
          ∧ countP (isLogFor opts.url) (scrape opts reg env).trace = 0)
      ∧ (allOk opts env = false →
          (scrape opts reg env).result = none
            ∧ ∃ c, Event.logError opts.url c ∈ (scrape opts reg env).trace)
      ∧ countP isNavigate (scrape opts reg env).trace ≤ 1 := by
  have hattlog : countP (isLogFor opts.url)
      (attempted env (steps opts (newRegistry opts reg))) = 0 :=
    countP_attempted_zero env _ (steps_no_log opts (newRegistry opts reg))
  have hreglog : countP (isLogFor opts.url) (regEvents opts) = 0 :=
    countP_regEvents opts _ (fun _ => rfl)
  have hregnav : countP isNavigate (regEvents opts) = 0 :=
    countP_regEvents opts _ (fun _ => rfl)
  have hattnav : countP isNavigate
      (attempted env (steps opts (newRegistry opts reg))) ≤ 1 := by
    have h := countP_sublist (p := isNavigate)
      (attempted_sublist env (steps opts (newRegistry opts reg)))
    rw [countP_navigate_steps] at h
    exact h
  refine ⟨?_, ?_, ?_⟩
  · intro hall
    have hf : firstFail env (steps opts (newRegistry opts reg)) = none := by
      rw [firstFail_none_iff, allOk_iff_all_steps]
      exact hall
    have hres : (scrape opts reg env).result = env.contentHtml := by
      rw [scrape_result_eq, if_pos hall]
    refine ⟨hres, ?_, ?_⟩
    · rw [hres]
      have : env.contentHtml.isSome = true := by
        rcases hsome : env.contentHtml with _ | h
        · rw [allOk, hsome] at hall
          simp at hall
        · rfl
      exact this
    · simp only [scrape, hf]
      rw [countP_append, countP_append, hattlog, hreglog]
      rfl
  · intro hall
    rcases hf : firstFail env (steps opts (newRegistry opts reg)) with _ | e
    · exfalso
      have h := (firstFail_none_iff env _).mp hf
      rw [allOk_iff_all_steps, hall] at h
      exact Bool.false_ne_true h
    · constructor
      · rw [scrape_result_eq, if_neg (by rw [hall]; exact Bool.false_ne_true)]
      · exact ⟨causeOf e, by simp [scrape, hf]⟩
  · rcases hf : firstFail env (steps opts (newRegistry opts reg)) with _ | e
    · simp only [scrape, hf]
      rw [countP_append, countP_append, hregnav]
      have : countP isNavigate [Event.close] = 0 := rfl
      omega
    · simp only [scrape, hf]
      rw [countP_append, countP_append, countP_append, hregnav]
      have h1 : countP isNavigate [Event.logError opts.url (causeOf e)] = 0 := rfl
      have h2 : countP isNavigate (if env.launchOk = true
          then [Event.close] else []) = 0 := by
        cases env.launchOk <;> rfl
      omega

/-- Witness for C1: with every step succeeding the call resolves to the HTML;
with a failing navigation it resolves to `null` and logs the URL. -/
theorem scrape_error_collapse_witness :
    (scrape { url := "https://example.com" } initRegistry envAll).result
        = some "<html><body>ok</body></html>"
      ∧ (scrape { url := "https://example.com" } initRegistry
            { envAll with gotoOk := false }).result = none := by
  constructor
  · exact ((scrape_error_collapse { url := "https://example.com" }
      initRegistry envAll).1 (by decide)).1
  · exact ((scrape_error_collapse { url := "https://example.com" }
      initRegistry { envAll with gotoOk := false }).2.1 (by decide)).1

lemma steps_no_auth (opts : ScrapeOptions) (plugins : List Plugin)
    (ha : authCond opts.proxy = false) :
    ∀ e ∈ steps opts plugins, isAuth e = false := by
  cases hk : jsTruthy opts.recaptchaApiKey <;> simp [steps, ha, hk, isAuth]

lemma tail_no_auth (opts : ScrapeOptions) {tail : List Event}
    (htail : ∀ e ∈ tail, (∃ c, e = Event.logError opts.url c) ∨ e = Event.close) :
    ∀ e ∈ tail, isAuth e = false := by
  intro e he
  rcases htail e he with ⟨c, rfl⟩ | rfl <;> rfl

lemma regEvents_no_navigate (opts : ScrapeOptions) :
    ∀ e ∈ regEvents opts, isNavigate e = false := by
  intro e he
  obtain ⟨pl, rfl⟩ := regEvents_shape opts e he
  rfl

/-- C4 counterexample: with `proxy.user` (and `proxy.pwd`) present but
`proxy.url` absent, no authentication call occurs at all, even though every
step succeeds — the code guards `page.authenticate` by
`proxy?.url && proxy?.user`, not by `proxy?.user` alone. -/
theorem scrape_auth_counterexample :
    countP isAuth (scrape
      { url := "http://example.com",
        proxy := { url := none, user := some "user1", pwd := some "pass1" } }
      initRegistry envAll).trace = 0 := by decide

/-- C4 (amended): for every request in which `proxy.url` and `proxy.user` are
both present (truthy), once the session is created (launch and newPage
succeed) `scrape` authenticates with exactly the supplied `user` and `pwd`,
and every authentication event precedes every navigation event. -/
theorem scrape_auth_before_navigation (opts : ScrapeOptions) (reg : List Plugin)
    (env : Env) (hurl : jsTruthy opts.proxy.url = true)
    (huser : jsTruthy opts.proxy.user = true)
    (hl : env.launchOk = true) (hn : env.newPageOk = true) :
    Event.authenticate opts.proxy.user opts.proxy.pwd ∈ (scrape opts reg env).trace
      ∧ beforeIn isAuth isNavigate (scrape opts reg env).trace := by
  have ha : authCond opts.proxy = true := by simp [authCond, hurl, huser]
  have hshape : steps opts (newRegistry opts reg)
      = [Event.launch true true (launchArgs opts.proxy) (newRegistry opts reg),
         Event.newPage]
        ++ Event.authenticate opts.proxy.user opts.proxy.pwd
          :: ([Event.setHeaders acceptHeader,
               Event.setInterception true,
               Event.evalOnNewDocument false [1, 2, 3, 4, 5] navLanguages,
               Event.createCDP,
               Event.setUAOverride userAgent "Win32" "en-US, en",
               Event.navigate opts.url "domcontentloaded" 60000,
               Event.waitForSelector "body"]
             ++ (if jsTruthy opts.recaptchaApiKey then [Event.solveRecaptchas] else [])
             ++ [Event.getContent]) := by
    simp [steps, ha]
  constructor
  · apply mem_trace_of_mem_attempted
    rw [hshape]
    refine (mem_attempted_iff env ?_).mpr ?_
    · simp
    · simp [stepOk, hl, hn]
  · obtain ⟨tail, htr, htail⟩ := trace_structure opts reg env
    rw [htr]
    apply beforeIn_extend (regEvents opts) tail (regEvents_no_navigate opts)
      (tail_no_auth opts htail)
    apply beforeIn_sublist (attempted_sublist env _)
    rw [hshape]
    refine ⟨[Event.launch true true (launchArgs opts.proxy) (newRegistry opts reg),
             Event.newPage,
             Event.authenticate opts.proxy.user opts.proxy.pwd],
            [Event.setHeaders acceptHeader,
             Event.setInterception true,
             Event.evalOnNewDocument false [1, 2, 3, 4, 5] navLanguages,
             Event.createCDP,
             Event.setUAOverride userAgent "Win32" "en-US, en",
             Event.navigate opts.url "domcontentloaded" 60000,
             Event.waitForSelector "body"]
             ++ (if jsTruthy opts.recaptchaApiKey then [Event.solveRecaptchas] else [])
             ++ [Event.getContent], by simp, ?_, ?_⟩
    · intro e he
      simp only [List.mem_cons, List.not_mem_nil, or_false] at he
      rcases he with rfl | rfl | rfl <;> rfl
    · cases hk : jsTruthy opts.recaptchaApiKey <;> simp [hk, isAuth]

/-- Witness for the amended C4 at a concrete proxy configuration. -/
theorem scrape_auth_before_navigation_witness :
    Event.authenticate (some "user1") (some "pass1") ∈ (scrape
        { url := "http://target.com",
          proxy := { url := some "http://proxy:8080",
                     user := some "user1", pwd := some "pass1" } }
        initRegistry envAll).trace
      ∧ beforeIn isAuth isNavigate (scrape
        { url := "http://target.com",
          proxy := { url := some "http://proxy:8080",
                     user := some "user1", pwd := some "pass1" } }
        initRegistry envAll).trace :=
  scrape_auth_before_navigation
    { url := "http://target.com",
      proxy := { url := some "http://proxy:8080",
                 user := some "user1", pwd := some "pass1" } }
    initRegistry envAll (by decide) (by decide) rfl rfl

lemma rawLaunchArgs_eq (p : Proxy) :
    rawLaunchArgs p = baseLaunchArgs
      ++ [if jsTruthy p.url then "--proxy-server=" ++ p.url.getD "" else ""] := rfl

lemma filter_baseLaunchArgs :
    baseLaunchArgs.filter (fun s => s != "") = baseLaunchArgs := by decide

lemma proxy_flag_ne_empty (u : String) : ("--proxy-server=" ++ u) ≠ "" := by
  intro hcontra
  have hd := congrArg String.data hcontra
  rw [String.data_append] at hd
  have hnil := List.append_eq_nil.mp hd
  simp at hnil

lemma launchArgs_eq (p : Proxy) :
    launchArgs p = baseLaunchArgs
      ++ (if jsTruthy p.url = true
          then ["--proxy-server=" ++ p.url.getD ""] else []) := by
  rw [launchArgs, rawLaunchArgs_eq, List.filter_append, filter_baseLaunchArgs]
  cases ht : jsTruthy p.url
  · rfl
  · simp [List.filter_cons, bne_iff_ne, proxy_flag_ne_empty]

lemma base_no_proxy_flag : ∀ s ∈ baseLaunchArgs, isProxyFlag s = false := by decide

lemma countP_auth_trace_zero (opts : ScrapeOptions) (reg : List Plugin)
    (env : Env) (ha : authCond opts.proxy = false) :
    countP isAuth (scrape opts reg env).trace = 0 :=
  countP_trace_zero opts reg env isAuth
    (steps_no_auth opts (newRegistry opts reg) ha)
    (fun _ => rfl) (fun _ => rfl) rfl

/-- C5: absence of `proxy.url` disables all proxy behaviour — no
`--proxy-server` launch flag and no `page.authenticate` call — regardless of
the other proxy fields; and when `proxy.url` is present but `proxy.user` is
absent, the `--proxy-server` flag is added yet no authentication is
attempted. -/
theorem scrape_proxy_optional (opts : ScrapeOptions) (reg : List Plugin)
    (env : Env) :
    (opts.proxy.url = none →
        (∀ s ∈ launchArgs opts.proxy, isProxyFlag s = false)
          ∧ countP isAuth (scrape opts reg env).trace = 0)
      ∧ (jsTruthy opts.proxy.url = true → opts.proxy.user = none →
          ("--proxy-server=" ++ opts.proxy.url.getD "") ∈ launchArgs opts.proxy
            ∧ countP isAuth (scrape opts reg env).trace = 0) := by
  constructor
  · intro hurl
    have ht : jsTruthy opts.proxy.url = false := by rw [hurl]; rfl
    constructor
    · intro s hs
      rw [launchArgs_eq, ht] at hs
      simp at hs
      exact base_no_proxy_flag s hs
    · exact countP_auth_trace_zero opts reg env (by simp [authCond, ht])
  · intro ht huser
    constructor
    · rw [launchArgs_eq, ht]
      simp
    · have hu : jsTruthy opts.proxy.user = false := by rw [huser]; rfl
      exact countP_auth_trace_zero opts reg env (by simp [authCond, hu])

/-- Witness for C5: no proxy flag and no authentication without `proxy.url`;
flag but no authentication with `proxy.url` alone. -/
theorem scrape_proxy_optional_witness :
    countP isAuth (scrape
        { url := "http://a.com",
          proxy := { url := none, user := none, pwd := some "pass1" } }
        initRegistry envAll).trace = 0
      ∧ ("--proxy-server=" ++ "http://proxy:8080") ∈ launchArgs
          { url := some "http://proxy:8080", user := none, pwd := none }
      ∧ countP isAuth (scrape
          { url := "http://a.com",
            proxy := { url := some "http://proxy:8080", user := none, pwd := none } }
          initRegistry envAll).trace = 0 := by
  refine ⟨((scrape_proxy_optional
      { url := "http://a.com",
        proxy := { url := none, user := none, pwd := some "pass1" } }
      initRegistry envAll).1 rfl).2, ?_, ?_⟩
  · exact ((scrape_proxy_optional
      { url := "http://a.com",
        proxy := { url := some "http://proxy:8080", user := none, pwd := none } }
      initRegistry envAll).2 (by decide) rfl).1
  · exact ((scrape_proxy_optional
      { url := "http://a.com",
        proxy := { url := some "http://proxy:8080", user := none, pwd := none } }
      initRegistry envAll).2 (by decide) rfl).2

lemma navigate_mem_steps (opts : ScrapeOptions) (plugins : List Plugin)
    {u w : String} {t : Nat} (h : Event.navigate u w t ∈ steps opts plugins) :
    u = opts.url ∧ w = "domcontentloaded" ∧ t = 60000 := by
  cases ha : authCond opts.proxy <;> cases hk : jsTruthy opts.recaptchaApiKey <;>
    simp [steps, ha, hk] at h <;> exact h

/-- C6: every navigation issued by `scrape` waits only for the structural DOM
load (`domcontentloaded`), with a fixed 60000 ms upper bound, and targets the
requested URL; when navigation fails (e.g. the timeout elapses) the call
resolves to the failure value `null`. -/
theorem scrape_navigation_bounds (opts : ScrapeOptions) (reg : List Plugin)
    (env : Env) :
    (∀ u w t, Event.navigate u w t ∈ (scrape opts reg env).trace →
        u = opts.url ∧ w = "domcontentloaded" ∧ t = 60000)
      ∧ (env.gotoOk = false → (scrape opts reg env).result = none) := by
  constructor
  · intro u w t h
    rcases mem_trace_cases opts reg env h with h | ⟨pl, heq⟩ | ⟨c, heq⟩ | heq
    · exact navigate_mem_steps opts _ h
    · simp at heq
    · simp at heq
    · simp at heq
  · intro hg
    have hfalse : allOk opts env = false := by simp [allOk, hg]
    rw [scrape_result_eq, hfalse]
    rfl

/-- Witness for C6: the concrete all-success run issues exactly the bounded
`domcontentloaded` navigation, and a run with failing navigation yields `null`. -/
theorem scrape_navigation_bounds_witness :
    ("https://example.com" = "https://example.com"
        ∧ "domcontentloaded" = "domcontentloaded" ∧ 60000 = 60000)
      ∧ (scrape { url := "https://example.com" } initRegistry
          { envAll with gotoOk := false }).result = none := by
  constructor
  · exact (scrape_navigation_bounds { url := "https://example.com" }
      initRegistry envAll).1 "https://example.com" "domcontentloaded" 60000
      (by decide)
  · exact (scrape_navigation_bounds { url := "https://example.com" }
      initRegistry { envAll with gotoOk := false }).2 rfl

/-- The try-block calls issued before the conditional reCAPTCHA step. -/
def preSolve (opts : ScrapeOptions) (plugins : List Plugin) : List Event :=
  [Event.launch true true (launchArgs opts.proxy) plugins, Event.newPage]
  ++ (if authCond opts.proxy then
        [Event.authenticate opts.proxy.user opts.proxy.pwd] else [])
  ++ [Event.setHeaders acceptHeader,
      Event.setInterception true,
      Event.evalOnNewDocument false [1, 2, 3, 4, 5] navLanguages,
      Event.createCDP,
      Event.setUAOverride userAgent "Win32" "en-US, en",
      Event.navigate opts.url "domcontentloaded" 60000,
      Event.waitForSelector "body"]

lemma steps_eq_preSolve (opts : ScrapeOptions) (plugins : List Plugin) :
    steps opts plugins = preSolve opts plugins
      ++ ((if jsTruthy opts.recaptchaApiKey then [Event.solveRecaptchas] else [])
          ++ [Event.getContent]) := by
  simp [steps, preSolve, List.append_assoc]

lemma preSolve_no_solve (opts : ScrapeOptions) (plugins : List Plugin) :
    ∀ e ∈ preSolve opts plugins, isSolve e = false := by
  cases ha : authCond opts.proxy <;> simp [preSolve, ha, isSolve]

lemma preSolve_all (opts : ScrapeOptions) (plugins : List Plugin) (env : Env) :
    (preSolve opts plugins).all (stepOk env) = okThroughReady opts env := by
  cases ha : authCond opts.proxy <;>
    simp [preSolve, stepOk, okThroughReady, okThroughUA, ha, Bool.and_assoc]

lemma solve_mem_trace_iff (opts : ScrapeOptions) (reg : List Plugin)
    (env : Env) :
    Event.solveRecaptchas ∈ (scrape opts reg env).trace
      ↔ (jsTruthy opts.recaptchaApiKey = true ∧ okThroughReady opts env = true) := by
  constructor
  · intro h
    rcases mem_trace_attempted_or opts reg env h with h | ⟨pl, heq⟩ | ⟨c, heq⟩ | heq
    · have hk : jsTruthy opts.recaptchaApiKey = true := by
        by_contra hkf
        rw [Bool.not_eq_true] at hkf
        have hsteps := (attempted_sublist env _).mem h
        rw [steps_eq_preSolve, hkf] at hsteps
        rcases List.mem_append.mp hsteps with hh | hh
        · have := preSolve_no_solve opts (newRegistry opts reg) _ hh
          simp [isSolve] at this
        · simp at hh
      refine ⟨hk, ?_⟩
      rw [steps_eq_preSolve, hk] at h
      simp only [if_pos rfl, List.singleton_append] at h
      rw [← preSolve_all opts (newRegistry opts reg) env]
      exact (mem_attempted_iff env (fun hc =>
        by have := preSolve_no_solve opts (newRegistry opts reg) _ hc
           simp [isSolve] at this)).mp h
    · simp at heq
    · simp at heq
    · simp at heq
  · rintro ⟨hk, hok⟩
    apply mem_trace_of_mem_attempted
    rw [steps_eq_preSolve, hk]
    simp only [if_pos rfl, List.singleton_append]
    exact (mem_attempted_iff env (fun hc =>
      by have := preSolve_no_solve opts (newRegistry opts reg) _ hc
         simp [isSolve] at this)).mpr
      ((preSolve_all opts (newRegistry opts reg) env).symm ▸ hok)

lemma regEvents_false (opts : ScrapeOptions) {p : Event → Bool}
    (h : ∀ pl, p (Event.registerPlugin pl) = false) :
    ∀ e ∈ regEvents opts, p e = false := by
  intro e he
  obtain ⟨pl, rfl⟩ := regEvents_shape opts e he
  exact h pl

lemma tail_false (opts : ScrapeOptions) {tail : List Event}
    (htail : ∀ e ∈ tail, (∃ c, e = Event.logError opts.url c) ∨ e = Event.close)
    {p : Event → Bool} (hlog : ∀ c, p (Event.logError opts.url c) = false)
    (hclose : p Event.close = false) :
    ∀ e ∈ tail, p e = false := by
  intro e he
  rcases htail e he with ⟨c, rfl⟩ | rfl
  · exact hlog c
  · exact hclose

lemma beforeIn_ready_solve_steps (opts : ScrapeOptions) (plugins : List Plugin) :
    beforeIn isReadyWait isSolve (steps opts plugins) := by
  rw [steps_eq_preSolve]
  refine ⟨preSolve opts plugins, _, rfl, preSolve_no_solve opts plugins, ?_⟩
  intro e he
  cases hk : jsTruthy opts.recaptchaApiKey <;> rw [hk] at he <;> simp at he
  · rw [he]; rfl
  · rcases he with rfl | rfl <;> rfl

lemma preSolve_no_content (opts : ScrapeOptions) (plugins : List Plugin) :
    ∀ e ∈ preSolve opts plugins, isGetContent e = false := by
  cases ha : authCond opts.proxy <;> simp [preSolve, ha, isGetContent]

lemma beforeIn_solve_content_steps (opts : ScrapeOptions) (plugins : List Plugin) :
    beforeIn isSolve isGetContent (steps opts plugins) := by
  rw [steps_eq_preSolve, ← List.append_assoc]
  refine ⟨_, [Event.getContent], rfl, ?_, by intro e he; simp at he; rw [he]; rfl⟩
  intro e he
  rcases List.mem_append.mp he with he | he
  · exact preSolve_no_content opts plugins e he
  · cases hk : jsTruthy opts.recaptchaApiKey <;> rw [hk] at he <;> simp at he
    rw [he]; rfl

/-- C7: in every run, the reCAPTCHA-solving capability is invoked exactly when
the request's CAPTCHA API key is present (truthy) and execution reaches the
post-readiness point (every step through the readiness wait succeeded); and
in every trace the solving step comes after the readiness wait and before the
HTML content extraction. -/
theorem scrape_captcha_conditional (opts : ScrapeOptions) (reg : List Plugin)
    (env : Env) :
    (Event.solveRecaptchas ∈ (scrape opts reg env).trace
        ↔ (jsTruthy opts.recaptchaApiKey = true ∧ okThroughReady opts env = true))
      ∧ beforeIn isReadyWait isSolve (scrape opts reg env).trace
      ∧ beforeIn isSolve isGetContent (scrape opts reg env).trace := by
  obtain ⟨tail, htr, htail⟩ := trace_structure opts reg env
  refine ⟨solve_mem_trace_iff opts reg env, ?_, ?_⟩
  · rw [htr]
    exact beforeIn_extend _ _
      (regEvents_false opts (fun _ => rfl))
      (tail_false opts htail (fun _ => rfl) rfl)
      (beforeIn_sublist (attempted_sublist env _)
        (beforeIn_ready_solve_steps opts (newRegistry opts reg)))
  · rw [htr]
    exact beforeIn_extend _ _
      (regEvents_false opts (fun _ => rfl))
      (tail_false opts htail (fun _ => rfl) rfl)
      (beforeIn_sublist (attempted_sublist env _)
        (beforeIn_solve_content_steps opts (newRegistry opts reg)))

/-- Witness for C7: with a key present and every step succeeding, the solving
event is in the trace, after readiness and before extraction; without a key
it is absent. -/
theorem scrape_captcha_conditional_witness :
    Event.solveRecaptchas ∈ (scrape
        { url := "https://example.com", recaptchaApiKey := some "captcha-key-1" }
        initRegistry envAll).trace
      ∧ beforeIn isReadyWait isSolve (scrape
          { url := "https://example.com", recaptchaApiKey := some "captcha-key-1" }
          initRegistry envAll).trace
      ∧ Event.solveRecaptchas ∉ (scrape
          { url := "https://example.com" } initRegistry envAll).trace := by
  refine ⟨?_, ?_, ?_⟩
  · exact (scrape_captcha_conditional
      { url := "https://example.com", recaptchaApiKey := some "captcha-key-1" }
      initRegistry envAll).1.mpr ⟨by decide, by decide⟩
  · exact (scrape_captcha_conditional
      { url := "https://example.com", recaptchaApiKey := some "captcha-key-1" }
      initRegistry envAll).2.1
  · intro hc
    have h := (scrape_captcha_conditional { url := "https://example.com" }
      initRegistry envAll).1.mp hc
    exact Bool.false_ne_true h.1

/-- The try-block calls issued before `page.evaluateOnNewDocument`. -/
def preEval (opts : ScrapeOptions) (plugins : List Plugin) : List Event :=
  [Event.launch true true (launchArgs opts.proxy) plugins, Event.newPage]
  ++ (if authCond opts.proxy then
        [Event.authenticate opts.proxy.user opts.proxy.pwd] else [])
  ++ [Event.setHeaders acceptHeader, Event.setInterception true]

lemma steps_eq_ua (opts : ScrapeOptions) (plugins : List Plugin) :
    steps opts plugins =
      (preEval opts plugins
        ++ [Event.evalOnNewDocument false [1, 2, 3, 4, 5] navLanguages,
            Event.createCDP])
      ++ Event.setUAOverride userAgent "Win32" "en-US, en"
        :: ([Event.navigate opts.url "domcontentloaded" 60000,
             Event.waitForSelector "body"]
            ++ (if jsTruthy opts.recaptchaApiKey then [Event.solveRecaptchas] else [])
            ++ [Event.getContent]) := by
  simp [steps, preEval, List.append_assoc]

lemma steps_eq_eval (opts : ScrapeOptions) (plugins : List Plugin) :
    steps opts plugins =
      preEval opts plugins
      ++ Event.evalOnNewDocument false [1, 2, 3, 4, 5] navLanguages
        :: ([Event.createCDP,
             Event.setUAOverride userAgent "Win32" "en-US, en",
             Event.navigate opts.url "domcontentloaded" 60000,
             Event.waitForSelector "body"]
            ++ (if jsTruthy opts.recaptchaApiKey then [Event.solveRecaptchas] else [])
            ++ [Event.getContent]) := by
  simp [steps, preEval, List.append_assoc]

lemma uaOverride_mem_steps (opts : ScrapeOptions) (plugins : List Plugin)
    {ua pf al : String} (h : Event.setUAOverride ua pf al ∈ steps opts plugins) :
    ua = userAgent ∧ pf = "Win32" ∧ al = "en-US, en" := by
  cases ha : authCond opts.proxy <;> cases hk : jsTruthy opts.recaptchaApiKey <;>
    simp [steps, ha, hk] at h <;> exact h

lemma uaOverride_not_mem_pre (opts : ScrapeOptions) (plugins : List Plugin) :
    Event.setUAOverride userAgent "Win32" "en-US, en"
      ∉ preEval opts plugins
        ++ [Event.evalOnNewDocument false [1, 2, 3, 4, 5] navLanguages,
            Event.createCDP] := by
  cases ha : authCond opts.proxy <;> simp [preEval, ha]

lemma eval_not_mem_pre (opts : ScrapeOptions) (plugins : List Plugin) :
    Event.evalOnNewDocument false [1, 2, 3, 4, 5] navLanguages
      ∉ preEval opts plugins := by
  cases ha : authCond opts.proxy <;> simp [preEval, ha]

/-- C8: every protocol-level user-agent override issued through the CDP
session carries exactly the spoofed user-agent string that was passed as the
`--user-agent` launch flag, and its accept-language is exactly the comma-join
of the spoofed `navigator.languages` page-level override, which is installed
on the same run — the page-level and protocol-level values never disagree. -/
theorem scrape_ua_consistency (opts : ScrapeOptions) (reg : List Plugin)
    (env : Env) (ua pf al : String)
    (h : Event.setUAOverride ua pf al ∈ (scrape opts reg env).trace) :
    ua = userAgent
      ∧ ("--user-agent=" ++ ua) ∈ launchArgs opts.proxy
      ∧ al = String.intercalate ", " navLanguages
      ∧ Event.evalOnNewDocument false [1, 2, 3, 4, 5] navLanguages
          ∈ (scrape opts reg env).trace := by
  rcases mem_trace_attempted_or opts reg env h with hatt | ⟨pl, heq⟩ | ⟨c, heq⟩ | heq
  · obtain ⟨hua, hpf, hal⟩ :=
      uaOverride_mem_steps opts (newRegistry opts reg)
        ((attempted_sublist env _).mem hatt)
    subst hua; subst hpf; subst hal
    rw [steps_eq_ua] at hatt
    have hall := (mem_attempted_iff env
      (uaOverride_not_mem_pre opts (newRegistry opts reg))).mp hatt
    rw [List.all_append, Bool.and_eq_true] at hall
    refine ⟨rfl, ?_, by decide, ?_⟩
    · rw [launchArgs_eq]
      exact List.mem_append.mpr (Or.inl (by simp [baseLaunchArgs]))
    · apply mem_trace_of_mem_attempted
      rw [steps_eq_eval]
      exact (mem_attempted_iff env
        (eval_not_mem_pre opts (newRegistry opts reg))).mpr hall.1
  · simp at heq
  · simp at heq
  · simp at heq

/-- Witness for C8 on the concrete all-success run. -/
theorem scrape_ua_consistency_witness :
    userAgent = userAgent
      ∧ ("--user-agent=" ++ userAgent) ∈ launchArgs
          ({ url := none, user := none, pwd := none } : Proxy)
      ∧ "en-US, en" = String.intercalate ", " navLanguages
      ∧ Event.evalOnNewDocument false [1, 2, 3, 4, 5] navLanguages
          ∈ (scrape { url := "https://example.com" } initRegistry envAll).trace :=
  scrape_ua_consistency { url := "https://example.com" } initRegistry envAll
    userAgent "Win32" "en-US, en" (by decide)

/-- C9 counterexample: state does persist across calls.  A call with a truthy
`recaptchaApiKey` mutates the process-wide plugin registry (lines 35-41 run
`puppeteer.use` inside the call), and a later call with identical arguments
behaves differently depending on whether that earlier call happened — its
launch sees a different plugin registry.  Both parts are evaluated on
concrete inputs in the all-success environment. -/
theorem scrape_stateless_counterexample :
    (scrape { url := "https://a.com", recaptchaApiKey := some "captcha-key-1" }
        initRegistry envAll).registry ≠ initRegistry
      ∧ scrape { url := "https://b.com" }
          (scrape { url := "https://a.com", recaptchaApiKey := some "captcha-key-1" }
            initRegistry envAll).registry envAll
        ≠ scrape { url := "https://b.com" } initRegistry envAll := by
  constructor <;> decide

/-- C9 (amended): calls share exactly one piece of cross-call state, the
process-wide plugin registry: a call with a truthy `recaptchaApiKey` appends
a recaptcha plugin registration (which persists into later calls), any other
call leaves the registry unchanged; and the resolved result of a call never
depends on the inherited registry. -/
theorem scrape_registry_effect (opts : ScrapeOptions) (reg reg' : List Plugin)
    (env : Env) :
    ((scrape opts reg env).registry
        = (if jsTruthy opts.recaptchaApiKey = true
           then reg ++ [Plugin.recaptcha (opts.recaptchaApiKey.getD "")]
           else reg))
      ∧ (scrape opts reg env).result = (scrape opts reg' env).result := by
  constructor
  · rw [scrape_registry_eq]
    rfl
  · rw [scrape_result_eq, scrape_result_eq]

/-- Witness for the amended C9 at concrete registries. -/
theorem scrape_registry_effect_witness :
    (scrape { url := "https://a.com", recaptchaApiKey := some "captcha-key-1" }
        initRegistry envAll).registry
      = initRegistry ++ [Plugin.recaptcha "captcha-key-1"]
      ∧ (scrape { url := "https://b.com" } initRegistry envAll).result
        = (scrape { url := "https://b.com" }
            (initRegistry ++ [Plugin.recaptcha "captcha-key-1"]) envAll).result := by
  constructor
  · exact (scrape_registry_effect
      { url := "https://a.com", recaptchaApiKey := some "captcha-key-1" }
      initRegistry initRegistry envAll).1.trans (by decide)
  · exact (scrape_registry_effect { url := "https://b.com" } initRegistry
      (initRegistry ++ [Plugin.recaptcha "captcha-key-1"]) envAll).2

/-- C10: `scrape` never propagates an exception to the caller from the body
between plugin registration and content extraction: over every pattern of
step failures (`Env` ranges over all of them) the call resolves, either to
`null` with the error logged, or to an HTML string. -/
theorem scrape_always_resolves (opts : ScrapeOptions) (reg : List Plugin)
    (env : Env) :
    ((scrape opts reg env).result = none
        ∧ ∃ c, Event.logError opts.url c ∈ (scrape opts reg env).trace)
      ∨ ∃ h, (scrape opts reg env).result = some h := by
  cases hall : allOk opts env
  · left
    constructor
    · rw [scrape_result_eq, hall]
      rfl
    · rcases hf : firstFail env (steps opts (newRegistry opts reg)) with _ | e
      · exfalso
        have h := (firstFail_none_iff env _).mp hf
        rw [allOk_iff_all_steps, hall] at h
        exact Bool.false_ne_true h
      · exact ⟨causeOf e, by simp [scrape, hf]⟩
  · right
    rcases hsome : env.contentHtml with _ | h
    · exfalso
      rw [allOk, hsome] at hall
      simp at hall
    · refine ⟨h, ?_⟩
      rw [scrape_result_eq, hall, if_pos rfl, hsome]

/-- Witness for C10: the resolution disjunction evaluated on a failing run
and on a successful run. -/
theorem scrape_always_resolves_witness :
    (scrape { url := "https://example.com" } initRegistry
        { envAll with launchOk := false }).result = none
      ∧ ∃ h, (scrape { url := "https://example.com" } initRegistry envAll).result
          = some h := by
  constructor
  · rcases scrape_always_resolves { url := "https://example.com" } initRegistry
      { envAll with launchOk := false } with ⟨hn, -⟩ | ⟨x, hx⟩
    · exact hn
    · rw [show (scrape { url := "https://example.com" } initRegistry
        { envAll with launchOk := false }).result = none from by decide] at hx
      exact Option.noConfusion hx
  · rcases scrape_always_resolves { url := "https://example.com" } initRegistry
      envAll with ⟨hn, -⟩ | hs
    · rw [show (scrape { url := "https://example.com" } initRegistry
        envAll).result = some "<html><body>ok</body></html>" from by decide] at hn
      exact Option.noConfusion hn
    · exact hs
